import Mathlib

/-!
Shallow embedding of two subsystems of the kythe repository:

* the Go compilation driver (`kythe/go/platform/analysis/driver`, provided as
  `src/unnamed/part_000`): `Driver.Run` pulls compilations from a `Queue`,
  runs Setup / Analyze (with a retry loop and an error-substitution hook) /
  Teardown, and propagates errors;
* the Bazel artifact selectors declared in
  `src/kythe/cxx/extractor/bazel_artifact_selector.h`: the stateless
  `ExtraActionSelector` inherits the base-class serialization defaults
  (present in the header); the stateful `AspectArtifactSelector`'s `Select`
  implementation lives in a `.cc` file that is not part of the sources, so it
  is modelled from the specification's algorithm.
-/

namespace KytheDriver

/-- Go `error` values as the driver observes them.  `retry` is the
distinguished sentinel `ErrRetry` (compared by identity in the Go code),
`eof` is `io.EOF`, and `msg s` is any other error whose rendered message
(`%v`) is `s`.  `fmt.Errorf` with `%v` constructs a fresh `msg` value, never
the original error, which matches the Go code's non-wrapping formatting. -/
inductive GoErr where
  | retry
  | eof
  | msg (s : String)
deriving DecidableEq, Repr

/-- Rendering of an error by Go's `%v` verb: `ErrRetry` was created with
message "retry analysis", `io.EOF` renders as "EOF". -/
def errText : GoErr → String
  | GoErr.retry => "retry analysis"
  | GoErr.eof => "EOF"
  | GoErr.msg s => s

/-- The `ErrRetry` sentinel from the driver package. -/
def ErrRetry : GoErr := GoErr.retry

/-- A `Compilation`: a compilation unit (opaque to the driver; kept as a
string tag) together with a revision marker. -/
structure Compilation where
  unit : String
  revision : String
deriving DecidableEq, Repr

/-- Observable side effects of one `Driver.Run` execution, in order: hook
invocations recorded so that claims about "the analyzer is invoked k times"
or "Teardown runs" are statements about the event trace.  Calls to the
`Output` sink happen only inside `analyzeCall` (the analyzer streams outputs
while it runs), so a trace with no `analyzeCall` also has no Output calls. -/
inductive DriverEvent where
  | setupCall (cu : Compilation)
  | analyzeCall (cu : Compilation) (attempt : Nat)
  | hookCall (cu : Compilation) (e : GoErr)
  | teardownCall (cu : Compilation)
deriving DecidableEq, Repr

/-- The `Driver` structure.  The analyzer is modelled as a function from the
compilation and the 0-based attempt number to its result (`none` = nil
error), which captures any deterministic `CompilationAnalyzer`.  `Output` is
only consulted for presence by `validate`; its invocations are internal to
`Analyze` and already reflected in the analyzer's result. -/
structure Driver where
  Analyzer : Option (Compilation → Nat → Option GoErr)
  FileDataService : String
  Setup : Option (Compilation → Option GoErr)
  Output : Option Unit
  Teardown : Option (Compilation → Option GoErr)
  AnalysisError : Option (Compilation → GoErr → Option GoErr)

/-- Transliteration of `(*Driver).validate`. -/
def Driver.validate (d : Driver) : Option GoErr :=
  match d.Analyzer with
  | none => some (GoErr.msg "missing Analyzer")
  | some _ =>
    match d.Output with
    | none => some (GoErr.msg "missing Output function")
    | some _ => none

/-- An item produced by a `Queue`: either `Next` invokes the callback with a
compilation (`comp`), or `Next` itself returns an error (`fail`).  Queue
exhaustion (`io.EOF`) is the end of the item list (or an explicit
`fail GoErr.eof`). -/
inductive QueueItem where
  | comp (cu : Compilation)
  | fail (e : GoErr)
deriving DecidableEq, Repr

/-- One iteration of the retry loop body after `Analyze` returns `r0`:
`if d.AnalysisError != nil && err != nil { err = d.AnalysisError(ctx, cu, err) }`.
Returns the post-hook result together with the events of the iteration. -/
def applyHook (cu : Compilation) (hook : Option (GoErr → Option GoErr))
    (r0 : Option GoErr) (attempt : Nat) : Option GoErr × List DriverEvent :=
  match hook, r0 with
  | some h, some e => (h e, [DriverEvent.analyzeCall cu attempt, DriverEvent.hookCall cu e])
  | _, _ => (r0, [DriverEvent.analyzeCall cu attempt])

/-- The retry loop
`err := ErrRetry; for err == ErrRetry { err = Analyze(...); if hook ... }`.
The Go loop is unbounded, so the embedding is fuel-indexed: `none` means the
loop did not exit within `fuel` analyzer invocations.  `attempt` counts the
analyzer invocations already made for this compilation. -/
def retryLoop (cu : Compilation) (analyze : Nat → Option GoErr)
    (hook : Option (GoErr → Option GoErr)) :
    Nat → Nat → Option (Option GoErr × List DriverEvent)
  | _, 0 => none
  | attempt, fuel + 1 =>
    let step := applyHook cu hook (analyze attempt) attempt
    if step.1 = some GoErr.retry then
      match retryLoop cu analyze hook (attempt + 1) fuel with
      | none => none
      | some (res, evs2) => some (res, step.2 ++ evs2)
    else
      some step

/-- The `AnalysisError` hook specialized to the current compilation. -/
def hookFor (d : Driver) (cu : Compilation) : Option (GoErr → Option GoErr) :=
  d.AnalysisError.map (fun h => h cu)

/-- The analysis phase followed by the Teardown block of the `Run` closure:
after the retry loop exits with `err`, if `d.Teardown != nil` it is invoked;
a Teardown failure becomes the result only when `err == nil`, otherwise it is
merely logged and `err` is returned. -/
def analyzeAndTeardown (fuel : Nat) (d : Driver)
    (A : Compilation → Nat → Option GoErr) (cu : Compilation) :
    Option (Option GoErr × List DriverEvent) :=
  match retryLoop cu (A cu) (hookFor d cu) 0 fuel with
  | none => none
  | some (err, evs) =>
    match d.Teardown with
    | none => some (err, evs)
    | some t =>
      match t cu, err with
      | none, _ => some (err, evs ++ [DriverEvent.teardownCall cu])
      | some tErr, none =>
        some (some (GoErr.msg ("analysis teardown error: " ++ errText tErr)),
          evs ++ [DriverEvent.teardownCall cu])
      | some _, some e => some (some e, evs ++ [DriverEvent.teardownCall cu])

/-- The closure passed to `queue.Next` in `Driver.Run`.  A Setup failure is
wrapped by `fmt.Errorf("analysis setup error: %v", err)` and returned at
once: the Go code reaches neither the retry loop nor the Teardown block in
that case. -/
def runBody (fuel : Nat) (d : Driver) (A : Compilation → Nat → Option GoErr)
    (cu : Compilation) : Option (Option GoErr × List DriverEvent) :=
  match d.Setup with
  | none => analyzeAndTeardown fuel d A cu
  | some s =>
    match s cu with
    | some e =>
      some (some (GoErr.msg ("analysis setup error: " ++ errText e)),
        [DriverEvent.setupCall cu])
    | none =>
      match analyzeAndTeardown fuel d A cu with
      | none => none
      | some (r, evs) => some (r, DriverEvent.setupCall cu :: evs)

/-- The outer loop of `Run`: `queue.Next` yields items until exhaustion
(`io.EOF`, the end of the list); the callback's return value is propagated by
`Next`, then `err == io.EOF` exits cleanly and any other non-nil `err` is
returned from `Run`. -/
def runLoop (fuel : Nat) (d : Driver) (A : Compilation → Nat → Option GoErr) :
    List QueueItem → Option (Option GoErr × List DriverEvent)
  | [] => some (none, [])
  | item :: rest =>
    let step :=
      match item with
      | QueueItem.fail e => some (some e, ([] : List DriverEvent))
      | QueueItem.comp cu => runBody fuel d A cu
    match step with
    | none => none
    | some (some e, evs) =>
      if e = GoErr.eof then some (none, evs) else some (some e, evs)
    | some (none, evs) =>
      match runLoop fuel d A rest with
      | none => none
      | some (r, evs2) => some (r, evs ++ evs2)

/-- Transliteration of `(*Driver).Run`: validate, then loop over the queue.
`fuel` bounds the number of analyzer invocations per compilation (the Go
retry loop is unbounded); the `none` result means some retry loop failed to
exit within `fuel` iterations.  The second component of a `some` result is
the trace of hook/analyzer invocations. -/
def Driver.Run (d : Driver) (fuel : Nat) (queue : List QueueItem) :
    Option (Option GoErr × List DriverEvent) :=
  match d.validate with
  | some e => some (some e, [])
  | none =>
    match d.Analyzer with
    | some A => runLoop fuel d A queue
    | none => some (some (GoErr.msg "missing Analyzer"), [])

/-- Number of analyzer invocations recorded in a trace. -/
def countAnalyze (evs : List DriverEvent) : Nat :=
  (evs.filter (fun e =>
    match e with
    | DriverEvent.analyzeCall _ _ => true
    | _ => false)).length

/-- Number of Teardown invocations recorded in a trace. -/
def countTeardown (evs : List DriverEvent) : Nat :=
  (evs.filter (fun e =>
    match e with
    | DriverEvent.teardownCall _ => true
    | _ => false)).length

end KytheDriver

namespace KytheSelector

/-- One file of an artifact, as carried by a `NamedSetOfFiles` event
(`{name, locator, optional symlink target}`). -/
structure BazelArtifactFile where
  name : String
  locator : String
  symlinkTarget : Option String
deriving DecidableEq, Repr

/-- An artifact produced by a selector: an id (the claiming target's label)
plus an ordered list of files. -/
structure BazelArtifact where
  id : String
  files : List BazelArtifactFile
deriving DecidableEq, Repr

/-- Payload of a `NamedSetOfFiles` build event. -/
structure NamedSetOfFilesEvent where
  fid : String
  files : List BazelArtifactFile
deriving DecidableEq, Repr

/-- One output group of a `TargetCompleted` event: a group name and the
fileset ids it references. -/
structure OutputGroup where
  name : String
  fileSetIds : List String
deriving DecidableEq, Repr

/-- Payload of a `TargetCompleted` build event. -/
structure TargetCompletedEvent where
  label : String
  aspect : String
  success : Bool
  outputGroups : List OutputGroup
deriving DecidableEq, Repr

/-- Payload of an `ActionCompleted` build event. -/
structure ActionCompletedEvent where
  actionType : String
  success : Bool
  primaryOutput : String
  label : String
deriving DecidableEq, Repr

/-- The closed sum of build-event kinds a selector distinguishes; every
other message kind is `other` and never produces output. -/
inductive BuildEvent where
  | namedSetOfFiles (e : NamedSetOfFilesEvent)
  | targetCompleted (e : TargetCompletedEvent)
  | actionCompleted (e : ActionCompletedEvent)
  | other
deriving DecidableEq, Repr

/-- Options of an `AspectArtifactSelector`
(`bazel_artifact_selector.h`, `AspectArtifactSelectorOptions`): the three
`RegexSet` allowlists, modelled as membership predicates. -/
structure AspectArtifactSelectorOptions where
  fileNameAllowlist : String → Bool
  outputGroupAllowlist : String → Bool
  targetAspectAllowlist : String → Bool

/-- The accumulator of an `AspectArtifactSelector`
(`AspectArtifactSelector::State` in the header): `disposed` filesets,
unclaimed filtered `filesets`, and `pending` claims (fileset id → claiming
target's label).  The hash set / hash maps are modelled as association
lists. -/
structure AspectSelectorState where
  disposed : List String
  filesets : List (String × List BazelArtifactFile)
  pending : List (String × String)
deriving DecidableEq, Repr

/-- Removal of a key from an association list. -/
def eraseKey (k : String) (m : List (String × α)) : List (String × α) :=
  m.filter (fun p => !(p.1 == k))

/-- Insert-or-overwrite of a key in an association list. -/
def setKey (k : String) (v : α) (m : List (String × α)) : List (String × α) :=
  (k, v) :: eraseKey k m

/-- Modelled from the spec: `AspectArtifactSelector::Select` on a
`NamedSetOfFiles` event; the implementation lives in
`bazel_artifact_selector.cc`, which is not among the sources.  Spec §4.1: an
already-disposed id is ignored; the files are filtered through
`file_name_allowlist`; a pending claim resolves immediately into an Artifact
tagged with the claiming target's label and disposes the id; otherwise the
filtered set is stored in `filesets`. -/
def selectFileSet (opts : AspectArtifactSelectorOptions)
    (st : AspectSelectorState) (e : NamedSetOfFilesEvent) :
    Option BazelArtifact × AspectSelectorState :=
  if st.disposed.contains e.fid then (none, st)
  else
    let filtered := e.files.filter (fun f => opts.fileNameAllowlist f.name)
    match st.pending.lookup e.fid with
    | some label =>
      (some { id := label, files := filtered },
       { disposed := e.fid :: st.disposed,
         filesets := st.filesets,
         pending := eraseKey e.fid st.pending })
    | none =>
      (none, { st with filesets := setKey e.fid filtered st.filesets })

/-- Modelled from the spec: handling of one referenced fileset id during a
`TargetCompleted` event (spec §4.1): disposed ids are skipped; a stored
fileset is removed, disposed and resolved into an Artifact (only the first
resolved Artifact of the call is returned); an unknown id is recorded in
`pending` under the target's label. -/
def processFileSetId (label : String)
    (acc : Option BazelArtifact × AspectSelectorState) (fid : String) :
    Option BazelArtifact × AspectSelectorState :=
  let st := acc.2
  if st.disposed.contains fid then acc
  else
    match st.filesets.lookup fid with
    | some files =>
      (match acc.1 with
       | some a => some a
       | none => some { id := label, files := files },
       { disposed := fid :: st.disposed,
         filesets := eraseKey fid st.filesets,
         pending := st.pending })
    | none =>
      (acc.1, { st with pending := setKey fid label st.pending })

/-- Modelled from the spec: `AspectArtifactSelector::Select` on a
`TargetCompleted` event; the implementation lives in
`bazel_artifact_selector.cc`, which is not among the sources.  Spec §4.1:
the event is ignored if unsuccessful, if the aspect fails
`target_aspect_allowlist`, or if no output-group name matches
`output_group_allowlist`; otherwise every fileset id referenced by a
qualifying group is processed in order. -/
def selectTargetCompleted (opts : AspectArtifactSelectorOptions)
    (st : AspectSelectorState) (e : TargetCompletedEvent) :
    Option BazelArtifact × AspectSelectorState :=
  if !e.success || !opts.targetAspectAllowlist e.aspect ||
      !(e.outputGroups.any (fun g => opts.outputGroupAllowlist g.name)) then
    (none, st)
  else
    let ids :=
      ((e.outputGroups.filter (fun g => opts.outputGroupAllowlist g.name)).map
        OutputGroup.fileSetIds).flatten
    ids.foldl (processFileSetId e.label) (none, st)

/-- Modelled from the spec: `AspectArtifactSelector::Select` (declared in
`bazel_artifact_selector.h`; its body in `bazel_artifact_selector.cc` is not
among the sources).  Dispatches on the event kind; `ActionCompleted` and
unknown events never touch aspect-selector state (spec §3: `Other` is
ignored by all selectors, and the aspect selector reacts only to
`NamedSetOfFiles` and `TargetCompleted`).  Child-fileset nesting (spec §4.1
file-assembly note) is left out: spec §9 records its resolution policy as an
open question, and the data model of spec §3 gives a `NamedSetOfFiles` only
an id and a file list. -/
def Select (opts : AspectArtifactSelectorOptions) (st : AspectSelectorState) :
    BuildEvent → Option BazelArtifact × AspectSelectorState
  | BuildEvent.namedSetOfFiles e => selectFileSet opts st e
  | BuildEvent.targetCompleted e => selectTargetCompleted opts st e
  | BuildEvent.actionCompleted _ => (none, st)
  | BuildEvent.other => (none, st)

/-- Folding `Select` over an event sequence, collecting each call's output. -/
def selectAll (opts : AspectArtifactSelectorOptions)
    (st : AspectSelectorState) :
    List BuildEvent → List (Option BazelArtifact) × AspectSelectorState
  | [] => ([], st)
  | ev :: rest =>
    let r := Select opts st ev
    let rs := selectAll opts r.2 rest
    (r.1 :: rs.1, rs.2)

/-- Modelled from the spec: the wire payload
`kythe.proto.BazelAspectArtifactSelectorState` (the proto file is not among
the sources), with exactly the three fields mirroring
`{disposed, filesets, pending}` (spec §6). -/
structure BazelAspectArtifactSelectorState where
  serDisposed : List String
  serFilesets : List (String × List BazelArtifactFile)
  serPending : List (String × String)
deriving DecidableEq, Repr

/-- Modelled from the spec: `AspectArtifactSelector::SerializeInto` encodes
`{disposed, filesets, pending}` into the typed payload; it always succeeds
(spec §4.1), so only the payload is returned here. -/
def aspectSerializeInto (st : AspectSelectorState) :
    BazelAspectArtifactSelectorState :=
  { serDisposed := st.disposed
    serFilesets := st.filesets
    serPending := st.pending }

/-- Modelled from the spec: the successful branch of
`AspectArtifactSelector::DeserializeFrom` — a payload of the correct type
replaces the internal state atomically with the decoded fields
(spec §4.1). -/
def aspectDeserializeFrom (p : BazelAspectArtifactSelectorState) :
    AspectSelectorState :=
  { disposed := p.serDisposed
    filesets := p.serFilesets
    pending := p.serPending }

/-- A `google.protobuf.Any` payload: a type url and opaque serialized
bytes. -/
structure AnyProto where
  typeUrl : String
  value : List Nat
deriving DecidableEq, Repr

/-- The `absl::Status` codes the selector interface uses. -/
inductive StatusCode where
  | ok
  | unimplemented
  | invalidArgument
  | failedPrecondition
  | notFound
deriving DecidableEq, Repr

/-- The stateless `ExtraActionSelector`
(`bazel_artifact_selector.h`): only the action-type predicate is stored. -/
structure ExtraActionSelector where
  actionMatches : String → Bool

/-- `ExtraActionSelector` declares no `SerializeInto` override, so it
inherits `BazelArtifactSelector::SerializeInto`, which returns `false`
without touching the `Any&` argument (header lines 56-58); the unchanged
blob is returned alongside the flag to make that visible. -/
def ExtraActionSelector.SerializeInto (sel : ExtraActionSelector)
    (state : AnyProto) : Bool × AnyProto :=
  (false, state)

/-- `ExtraActionSelector` declares no `DeserializeFrom` override, so it
inherits `BazelArtifactSelector::DeserializeFrom`, which unconditionally
returns `absl::UnimplementedError("stateless selector")` (header lines
65-67). -/
def ExtraActionSelector.DeserializeFrom (sel : ExtraActionSelector)
    (state : AnyProto) : StatusCode :=
  StatusCode.unimplemented

end KytheSelector

namespace KytheDriver

/-- A sample compilation. -/
def exCU : Compilation := { unit := "u", revision := "r" }

/-- A driver whose Setup hook always fails with message "boom" and which has
a Teardown hook configured. -/
def setupFailDriver : Driver :=
  { Analyzer := some (fun _ _ => none)
    FileDataService := ""
    Setup := some (fun _ => some (GoErr.msg "boom"))
    Output := some ()
    Teardown := some (fun _ => none)
    AnalysisError := none }

/-- A driver whose Setup hook returns the `ErrRetry` sentinel itself. -/
def setupRetryDriver : Driver :=
  { Analyzer := some (fun _ _ => none)
    FileDataService := ""
    Setup := some (fun _ => some GoErr.retry)
    Output := some ()
    Teardown := some (fun _ => none)
    AnalysisError := none }

/-- A driver whose analyzer always returns `ErrRetry` and whose
`AnalysisError` hook suppresses every error by returning nil. -/
def retryHookDriver : Driver :=
  { Analyzer := some (fun _ _ => some GoErr.retry)
    FileDataService := ""
    Setup := none
    Output := some ()
    Teardown := none
    AnalysisError := some (fun _ _ => none) }

/-- A driver whose analyzer fails with "afail" and whose Teardown hook fails
with "tfail". -/
def bothFailDriver : Driver :=
  { Analyzer := some (fun _ _ => some (GoErr.msg "afail"))
    FileDataService := ""
    Setup := none
    Output := some ()
    Teardown := some (fun _ => some (GoErr.msg "tfail"))
    AnalysisError := none }

/-- A driver whose analyzer succeeds but whose Teardown hook fails with
"tfail". -/
def teardownFailDriver : Driver :=
  { Analyzer := some (fun _ _ => none)
    FileDataService := ""
    Setup := none
    Output := some ()
    Teardown := some (fun _ => some (GoErr.msg "tfail"))
    AnalysisError := none }

/-- A driver whose analyzer returns `ErrRetry` on the first two attempts and
then succeeds, with no `AnalysisError` hook. -/
def retryTwiceDriver : Driver :=
  { Analyzer := some (fun _ n => if n < 2 then some GoErr.retry else none)
    FileDataService := ""
    Setup := none
    Output := some ()
    Teardown := some (fun _ => none)
    AnalysisError := none }

/-- A driver with no Analyzer configured. -/
def noAnalyzerDriver : Driver :=
  { Analyzer := none
    FileDataService := ""
    Setup := some (fun _ => none)
    Output := some ()
    Teardown := some (fun _ => none)
    AnalysisError := none }

/-- A driver with an Analyzer but no Output function configured. -/
def noOutputDriver : Driver :=
  { Analyzer := some (fun _ _ => none)
    FileDataService := ""
    Setup := some (fun _ => none)
    Output := none
    Teardown := some (fun _ => none)
    AnalysisError := none }

end KytheDriver

namespace KytheSelector

/-- Options for the concrete scenarios of spec §8: the file-name allowlist
matches "out/foo.kzip", the output-group allowlist matches "g", and the
aspect allowlist keeps its match-everything default. -/
def exOpts : AspectArtifactSelectorOptions :=
  { fileNameAllowlist := fun s => s == "out/foo.kzip"
    outputGroupAllowlist := fun s => s == "g"
    targetAspectAllowlist := fun _ => true }

/-- The single file of the concrete scenarios. -/
def exFile : BazelArtifactFile :=
  { name := "out/foo.kzip", locator := "out/foo.kzip", symlinkTarget := none }

/-- The `NamedSetOfFiles` event of the concrete scenarios. -/
def exFileSetEvent : NamedSetOfFilesEvent := { fid := "fs1", files := [exFile] }

/-- The `TargetCompleted` event of the concrete scenarios. -/
def exTargetEvent : TargetCompletedEvent :=
  { label := "//x:y", aspect := "kythe", success := true,
    outputGroups := [{ name := "g", fileSetIds := ["fs1"] }] }

/-- The state of a freshly constructed `AspectArtifactSelector`. -/
def emptyState : AspectSelectorState :=
  { disposed := [], filesets := [], pending := [] }

/-- The artifact both event orders must produce. -/
def exArtifact : BazelArtifact := { id := "//x:y", files := [exFile] }

end KytheSelector

namespace KytheSelector

/-- C9: for every input, the stateless `ExtraActionSelector`'s
`SerializeInto` returns false and leaves the provided state blob unmodified,
and its `DeserializeFrom` unconditionally returns the unimplemented status
regardless of the payload's type or content. -/
theorem C9_extra_action_selector_stateless (sel : ExtraActionSelector)
    (state : AnyProto) :
    sel.SerializeInto state = (false, state) ∧
    sel.DeserializeFrom state = StatusCode.unimplemented :=
  ⟨rfl, rfl⟩

/-- C5: for every `AspectSelectorState` and every subsequent sequence of
build events, serializing the state with `SerializeInto` and restoring it
via `DeserializeFrom` into a freshly constructed selector with the same
options yields exactly the same sequence of `Select` outputs for that event
sequence as continuing with the original selector. -/
theorem C5_serialization_roundtrip (opts : AspectArtifactSelectorOptions)
    (st : AspectSelectorState) (events : List BuildEvent) :
    selectAll opts (aspectDeserializeFrom (aspectSerializeInto st)) events =
      selectAll opts st events := by
  cases st
  rfl

/-- C6: for a single matching (target, fileset) pair fed to a fresh
`AspectArtifactSelector`, the order [NamedSetOfFiles, TargetCompleted] and
the reversed order each produce exactly one Artifact with identical content,
and both leave the fileset id in `disposed` with `pending` empty. -/
theorem C6_order_independence :
    selectAll exOpts emptyState
        [BuildEvent.namedSetOfFiles exFileSetEvent,
         BuildEvent.targetCompleted exTargetEvent] =
      ([none, some exArtifact],
        { disposed := ["fs1"], filesets := [], pending := [] }) ∧
    selectAll exOpts emptyState
        [BuildEvent.targetCompleted exTargetEvent,
         BuildEvent.namedSetOfFiles exFileSetEvent] =
      ([none, some exArtifact],
        { disposed := ["fs1"], filesets := [], pending := [] }) := by
  exact ⟨by decide, by decide⟩

end KytheSelector

namespace KytheDriver

/-- C8: `Driver.Run` returns a configuration error independently of the
queue (so before the first `Queue.Next` call) and with an empty event trace
(so before invoking any hook) whenever the Analyzer or the Output function
is unset; when both are set, validation passes and `Run` proceeds to the
queue loop. -/
theorem C8_validation_before_io (d : Driver) (fuel : Nat)
    (queue : List QueueItem) :
    (d.Analyzer = none →
      d.Run fuel queue = some (some (GoErr.msg "missing Analyzer"), [])) ∧
    (∀ A, d.Analyzer = some A → d.Output = none →
      d.Run fuel queue = some (some (GoErr.msg "missing Output function"), [])) ∧
    (∀ A, d.Analyzer = some A → d.Output = some () →
      d.validate = none ∧ d.Run fuel queue = runLoop fuel d A queue) := by
  refine ⟨?_, ?_, ?_⟩
  · intro h
    simp [Driver.Run, Driver.validate, h]
  · intro A hA hO
    simp [Driver.Run, Driver.validate, hA, hO]
  · intro A hA hO
    simp [Driver.Run, Driver.validate, hA, hO]

/-- Witness for C8 at concrete drivers. -/
theorem C8_validation_before_io_witness :
    Driver.Run noAnalyzerDriver 3 [QueueItem.comp exCU] =
      some (some (GoErr.msg "missing Analyzer"), []) ∧
    Driver.Run noOutputDriver 3 [QueueItem.comp exCU] =
      some (some (GoErr.msg "missing Output function"), []) ∧
    Driver.validate setupFailDriver = none :=
  ⟨(C8_validation_before_io noAnalyzerDriver 3 [QueueItem.comp exCU]).1 rfl,
   (C8_validation_before_io noOutputDriver 3 [QueueItem.comp exCU]).2.1
     (fun _ _ => none) rfl rfl,
   ((C8_validation_before_io setupFailDriver 3 [QueueItem.comp exCU]).2.2
     (fun _ _ => none) rfl rfl).1⟩

/-- C7: for a validated driver, end-of-stream on the very first `Next`
yields a nil result and an empty trace (no Setup, Analyze, Output or
Teardown call); an explicit `io.EOF` from `Next` terminates `Run` cleanly
whatever follows; any other error from `Next` is returned immediately. -/
theorem C7_eof_clean_exit (d : Driver) (fuel : Nat) (rest : List QueueItem)
    (e : GoErr) (hv : d.validate = none) (he : e ≠ GoErr.eof) :
    d.Run fuel [] = some (none, []) ∧
    d.Run fuel (QueueItem.fail GoErr.eof :: rest) = some (none, []) ∧
    d.Run fuel (QueueItem.fail e :: rest) = some (some e, []) := by
  rcases hDA : d.Analyzer with _ | A
  · exfalso
    simp [Driver.validate, hDA] at hv
  · refine ⟨?_, ?_, ?_⟩
    · simp [Driver.Run, hv, hDA, runLoop]
    · simp [Driver.Run, hv, hDA, runLoop]
    · simp [Driver.Run, hv, hDA, runLoop, he]

/-- Witness for C7 at a concrete driver and error. -/
theorem C7_eof_clean_exit_witness :
    Driver.Run setupFailDriver 3 [] = some (none, []) ∧
    Driver.Run setupFailDriver 3 [QueueItem.fail GoErr.eof] = some (none, []) ∧
    Driver.Run setupFailDriver 3 [QueueItem.fail (GoErr.msg "q")] =
      some (some (GoErr.msg "q"), []) :=
  C7_eof_clean_exit setupFailDriver 3 [] (GoErr.msg "q") rfl (by decide)

/-- Counterexample to C1: with a configured Teardown hook and a failing
Setup hook, the trace of `Run` contains no `teardownCall`, contradicting the
claim that Teardown is still invoked for the item — the Go closure returns
the wrapped setup error before reaching the Teardown block. -/
theorem C1_counterexample :
    setupFailDriver.Teardown.isSome = true ∧
    Driver.Run setupFailDriver 3 [QueueItem.comp exCU] =
      some (some (GoErr.msg "analysis setup error: boom"),
        [DriverEvent.setupCall exCU]) ∧
    DriverEvent.teardownCall exCU ∉ [DriverEvent.setupCall exCU] :=
  ⟨rfl, by decide, by decide⟩

/-- C1 (amended): when the configured Setup hook fails, the failure is
wrapped as a setup error and becomes the item's result, the analyzer is
never invoked for that item, and the configured Teardown hook is NOT invoked
for that item: the trace of the whole run holds nothing but the Setup
call. -/
theorem C1_setup_failure_skips_item (d : Driver)
    (A : Compilation → Nat → Option GoErr) (cu : Compilation)
    (s : Compilation → Option GoErr) (e : GoErr) (fuel : Nat)
    (rest : List QueueItem)
    (hA : d.Analyzer = some A) (hO : d.Output = some ())
    (hs : d.Setup = some s) (he : s cu = some e) :
    d.Run fuel (QueueItem.comp cu :: rest) =
      some (some (GoErr.msg ("analysis setup error: " ++ errText e)),
        [DriverEvent.setupCall cu]) := by
  have hbody : runBody fuel d A cu =
      some (some (GoErr.msg ("analysis setup error: " ++ errText e)),
        [DriverEvent.setupCall cu]) := by
    simp [runBody, hs, he]
  simp [Driver.Run, Driver.validate, hA, hO, runLoop, hbody]

/-- Witness for the amended C1 at a concrete driver. -/
theorem C1_setup_failure_skips_item_witness :
    Driver.Run setupFailDriver 3 [QueueItem.comp exCU] =
      some (some (GoErr.msg ("analysis setup error: " ++ errText (GoErr.msg "boom"))),
        [DriverEvent.setupCall exCU]) :=
  C1_setup_failure_skips_item setupFailDriver (fun _ _ => none) exCU
    (fun _ => some (GoErr.msg "boom")) (GoErr.msg "boom") 3 [] rfl rfl rfl rfl

/-- C10: when the configured Setup hook returns a non-nil error, the item's
result is a newly constructed error carrying only the message text of the
Setup error — never the original error value — and in particular a Setup
hook returning `ErrRetry` triggers no retry: the trace holds no analyzer
call and the wrapped setup error is simply returned. -/
theorem C10_setup_error_not_original (d : Driver)
    (A : Compilation → Nat → Option GoErr) (cu : Compilation)
    (s : Compilation → Option GoErr) (e : GoErr) (fuel : Nat)
    (hs : d.Setup = some s) (he : s cu = some e) :
    runBody fuel d A cu =
      some (some (GoErr.msg ("analysis setup error: " ++ errText e)),
        [DriverEvent.setupCall cu]) ∧
    GoErr.msg ("analysis setup error: " ++ errText e) ≠ e := by
  constructor
  · simp [runBody, hs, he]
  · cases e with
    | retry => simp
    | eof => simp
    | msg m =>
      intro h
      injection h with h2
      simp only [errText] at h2
      have h3 := congrArg String.length h2
      rw [String.length_append] at h3
      have h4 : ("analysis setup error: ").length = 22 := by decide
      omega

/-- Witness for C10: a Setup hook returning the retry sentinel itself. -/
theorem C10_setup_error_not_original_witness :
    runBody 3 setupRetryDriver (fun _ _ => none) exCU =
      some (some (GoErr.msg ("analysis setup error: " ++ errText GoErr.retry)),
        [DriverEvent.setupCall exCU]) ∧
    GoErr.msg ("analysis setup error: " ++ errText GoErr.retry) ≠ GoErr.retry :=
  C10_setup_error_not_original setupRetryDriver (fun _ _ => none) exCU
    (fun _ => some GoErr.retry) GoErr.retry 3 rfl rfl

/-- Counterexample to C2: an analyzer returning `ErrRetry` with a configured
`AnalysisError` hook that returns nil.  The Go loop applies the hook to the
retry sentinel too (`if d.AnalysisError != nil && err != nil`), so the trace
shows exactly one analyzer invocation — no immediate re-invocation — and a
hook call whose argument is the retry sentinel, contradicting both parts of
the claim. -/
theorem C2_counterexample :
    Driver.Run retryHookDriver 3 [QueueItem.comp exCU] =
      some (none,
        [DriverEvent.analyzeCall exCU 0, DriverEvent.hookCall exCU GoErr.retry]) ∧
    countAnalyze
      [DriverEvent.analyzeCall exCU 0, DriverEvent.hookCall exCU GoErr.retry] = 1 ∧
    DriverEvent.hookCall exCU GoErr.retry ∈
      [DriverEvent.analyzeCall exCU 0, DriverEvent.hookCall exCU GoErr.retry] :=
  ⟨by decide, by decide, by decide⟩

/-- C2 (amended): the `AnalysisError` hook is applied to every non-nil
analyzer result, the retry sentinel included; the hook's return value
replaces the result; the analyzer is immediately re-invoked exactly when the
post-hook result (or, with no hook, the analyzer's own result) is the retry
sentinel; a nil analyzer result bypasses the hook and exits the loop. -/
theorem C2_retry_hook_semantics (cu : Compilation)
    (analyze : Nat → Option GoErr) (h : GoErr → Option GoErr) (e : GoErr)
    (attempt fuel : Nat) :
    (analyze attempt = some GoErr.retry →
      retryLoop cu analyze none attempt (fuel + 1) =
        (match retryLoop cu analyze none (attempt + 1) fuel with
         | none => none
         | some (res, evs) =>
           some (res, DriverEvent.analyzeCall cu attempt :: evs))) ∧
    (analyze attempt = some e → h e = some GoErr.retry →
      retryLoop cu analyze (some h) attempt (fuel + 1) =
        (match retryLoop cu analyze (some h) (attempt + 1) fuel with
         | none => none
         | some (res, evs) =>
           some (res, DriverEvent.analyzeCall cu attempt ::
             DriverEvent.hookCall cu e :: evs))) ∧
    (analyze attempt = some e → h e ≠ some GoErr.retry →
      retryLoop cu analyze (some h) attempt (fuel + 1) =
        some (h e,
          [DriverEvent.analyzeCall cu attempt, DriverEvent.hookCall cu e])) ∧
    (analyze attempt = none →
      retryLoop cu analyze (some h) attempt (fuel + 1) =
        some (none, [DriverEvent.analyzeCall cu attempt])) := by
  refine ⟨?_, ?_, ?_, ?_⟩
  · intro h1
    simp only [retryLoop, applyHook, h1]
    cases retryLoop cu analyze none (attempt + 1) fuel <;> simp
  · intro h1 h2
    simp only [retryLoop, applyHook, h1, h2]
    cases retryLoop cu analyze (some h) (attempt + 1) fuel <;> simp
  · intro h1 h2
    simp only [retryLoop, applyHook, h1]
    simp [h2]
  · intro h1
    simp [retryLoop, applyHook, h1]

/-- Witness for the amended C2: a failing analyzer whose hook suppresses the
error, exiting the loop after one invocation with the hook's nil result. -/
theorem C2_retry_hook_semantics_witness :
    retryLoop exCU (fun _ => some (GoErr.msg "x")) (some (fun _ => none)) 0 3 =
      some (none,
        [DriverEvent.analyzeCall exCU 0, DriverEvent.hookCall exCU (GoErr.msg "x")]) :=
  (C2_retry_hook_semantics exCU (fun _ => some (GoErr.msg "x")) (fun _ => none)
    (GoErr.msg "x") 0 2).2.2.1 rfl (by decide)

/-- C3: when the retry loop ends with an analysis error (possibly
hook-substituted) and Teardown also fails, the item's result is the analysis
error (the Teardown failure is only logged); when the loop ends nil and
Teardown fails, the wrapped teardown error is the item's result.  Teardown
is invoked in both cases. -/
theorem C3_error_precedence (fuel : Nat) (d : Driver)
    (A : Compilation → Nat → Option GoErr) (cu : Compilation)
    (t : Compilation → Option GoErr) (tErr : GoErr)
    (ht : d.Teardown = some t) (htr : t cu = some tErr) :
    (∀ e evs, retryLoop cu (A cu) (hookFor d cu) 0 fuel = some (some e, evs) →
      analyzeAndTeardown fuel d A cu =
        some (some e, evs ++ [DriverEvent.teardownCall cu])) ∧
    (∀ evs, retryLoop cu (A cu) (hookFor d cu) 0 fuel = some (none, evs) →
      analyzeAndTeardown fuel d A cu =
        some (some (GoErr.msg ("analysis teardown error: " ++ errText tErr)),
          evs ++ [DriverEvent.teardownCall cu])) := by
  constructor
  · intro e evs hr
    simp [analyzeAndTeardown, hr, ht, htr]
  · intro evs hr
    simp [analyzeAndTeardown, hr, ht, htr]

/-- Event counts distribute over trace concatenation. -/
lemma countAnalyze_append (a b : List DriverEvent) :
    countAnalyze (a ++ b) = countAnalyze a + countAnalyze b := by
  simp [countAnalyze, List.filter_append]

/-- Event counts distribute over trace concatenation. -/
lemma countTeardown_append (a b : List DriverEvent) :
    countTeardown (a ++ b) = countTeardown a + countTeardown b := by
  simp [countTeardown, List.filter_append]

/-- With no hook, an analyzer that answers the retry sentinel on the first
`K` attempts (counted from `attempt`) and nil on attempt `attempt + K`
makes the retry loop exit nil after exactly `K + 1` analyzer invocations,
with no Teardown event emitted by the loop. -/
lemma retryLoop_retry_count (cu : Compilation) (analyze : Nat → Option GoErr) :
    ∀ (K fuel attempt : Nat), K < fuel →
    (∀ n, n < K → analyze (attempt + n) = some GoErr.retry) →
    analyze (attempt + K) = none →
    ∃ evs, retryLoop cu analyze none attempt fuel = some (none, evs) ∧
      countAnalyze evs = K + 1 ∧ countTeardown evs = 0 := by
  intro K
  induction K with
  | zero =>
    intro fuel attempt hf h1 h2
    cases fuel with
    | zero => omega
    | succ f =>
      have h0 : analyze attempt = none := by simpa using h2
      refine ⟨[DriverEvent.analyzeCall cu attempt], ?_,
        by simp [countAnalyze], by simp [countTeardown]⟩
      simp [retryLoop, applyHook, h0]
  | succ K ih =>
    intro fuel attempt hf h1 h2
    cases fuel with
    | zero => omega
    | succ f =>
      have h0 : analyze attempt = some GoErr.retry := by
        have := h1 0 (Nat.succ_pos K)
        simpa using this
      obtain ⟨evs, hevs, hca, hct⟩ := ih f (attempt + 1) (by omega)
        (fun n hn => by
          have := h1 (n + 1) (by omega)
          have harith : attempt + (n + 1) = attempt + 1 + n := by omega
          rwa [harith] at this)
        (by
          have harith : attempt + (K + 1) = attempt + 1 + K := by omega
          rwa [harith] at h2)
      refine ⟨DriverEvent.analyzeCall cu attempt :: evs, ?_, ?_, ?_⟩
      · simp [retryLoop, applyHook, h0, hevs]
      · simp [countAnalyze] at hca ⊢
        omega
      · simp [countTeardown] at hct ⊢
        exact hct

/-- One queue item under the C4 scenario: Setup unset, no hook, Teardown
configured and succeeding, analyzer retrying `K` times then succeeding: the
callback ends nil with `K + 1` analyzer invocations and one Teardown
invocation. -/
lemma runBody_retry_count (fuel : Nat) (d : Driver)
    (A : Compilation → Nat → Option GoErr) (cu : Compilation)
    (t : Compilation → Option GoErr) (K : Nat)
    (hsetup : d.Setup = none) (hhook : d.AnalysisError = none)
    (ht : d.Teardown = some t) (htc : t cu = none)
    (hf : K < fuel)
    (hretry : ∀ n, n < K → A cu n = some GoErr.retry)
    (hsucc : A cu K = none) :
    ∃ evs, runBody fuel d A cu = some (none, evs) ∧
      countAnalyze evs = K + 1 ∧ countTeardown evs = 1 := by
  obtain ⟨evs, hevs, hca, hct⟩ :=
    retryLoop_retry_count cu (A cu) K fuel 0 hf
      (fun n hn => by simpa using hretry n hn) (by simpa using hsucc)
  have hhf : hookFor d cu = none := by simp [hookFor, hhook]
  refine ⟨evs ++ [DriverEvent.teardownCall cu], ?_, ?_, ?_⟩
  · simp [runBody, hsetup, analyzeAndTeardown, hhf, hevs, ht, htc]
  · rw [countAnalyze_append, hca]
    simp [countAnalyze]
  · rw [countTeardown_append, hct]
    simp [countTeardown]

/-- Queue-level counting: under the C4 scenario every queued compilation
contributes `K cu + 1` analyzer invocations and one Teardown invocation. -/
lemma runLoop_retry_count (fuel : Nat) (d : Driver)
    (A : Compilation → Nat → Option GoErr) (K : Compilation → Nat)
    (t : Compilation → Option GoErr)
    (hsetup : d.Setup = none) (hhook : d.AnalysisError = none)
    (ht : d.Teardown = some t) :
    ∀ comps : List Compilation,
    (∀ cu ∈ comps, t cu = none) →
    (∀ cu ∈ comps, ∀ n, n < K cu → A cu n = some GoErr.retry) →
    (∀ cu ∈ comps, A cu (K cu) = none) →
    (∀ cu ∈ comps, K cu < fuel) →
    ∃ evs, runLoop fuel d A (comps.map QueueItem.comp) = some (none, evs) ∧
      countAnalyze evs = (comps.map (fun cu => K cu + 1)).sum ∧
      countTeardown evs = comps.length := by
  intro comps
  induction comps with
  | nil =>
    intro _ _ _ _
    exact ⟨[], by simp [runLoop], by simp [countAnalyze], by simp [countTeardown]⟩
  | cons cu rest ih =>
    intro htOK hretry hsucc hfuel
    obtain ⟨evs1, h1, hca1, hct1⟩ := runBody_retry_count fuel d A cu t (K cu)
      hsetup hhook ht (htOK cu (by simp)) (hfuel cu (by simp))
      (fun n hn => hretry cu (by simp) n hn) (hsucc cu (by simp))
    obtain ⟨evs2, h2, hca2, hct2⟩ := ih
      (fun c hc => htOK c (by simp [hc])) (fun c hc => hretry c (by simp [hc]))
      (fun c hc => hsucc c (by simp [hc])) (fun c hc => hfuel c (by simp [hc]))
    refine ⟨evs1 ++ evs2, ?_, ?_, ?_⟩
    · simp [runLoop, h1, h2]
    · rw [countAnalyze_append, hca1, hca2]
      simp
    · rw [countTeardown_append, hct1, hct2]
      simp [Nat.add_comm]

/-- C4: for a queue yielding the given compilations, an analyzer (with no
`AnalysisError` hook configured) that returns the retry sentinel exactly
`K cu` times per compilation and then succeeds makes `Run` invoke the
analyzer exactly `K cu + 1` times per compilation and the configured
Teardown hook exactly once per compilation, for every `K`. -/
theorem C4_retry_counting (d : Driver) (A : Compilation → Nat → Option GoErr)
    (K : Compilation → Nat) (comps : List Compilation)
    (t : Compilation → Option GoErr) (fuel : Nat)
    (hA : d.Analyzer = some A) (hO : d.Output = some ())
    (hsetup : d.Setup = none) (hhook : d.AnalysisError = none)
    (ht : d.Teardown = some t)
    (htOK : ∀ cu ∈ comps, t cu = none)
    (hretry : ∀ cu ∈ comps, ∀ n, n < K cu → A cu n = some GoErr.retry)
    (hsucc : ∀ cu ∈ comps, A cu (K cu) = none)
    (hfuel : ∀ cu ∈ comps, K cu < fuel) :
    ∃ evs, d.Run fuel (comps.map QueueItem.comp) = some (none, evs) ∧
      countAnalyze evs = (comps.map (fun cu => K cu + 1)).sum ∧
      countTeardown evs = comps.length := by
  obtain ⟨evs, h1, h2, h3⟩ := runLoop_retry_count fuel d A K t hsetup hhook ht
    comps htOK hretry hsucc hfuel
  refine ⟨evs, ?_, h2, h3⟩
  simp [Driver.Run, Driver.validate, hA, hO, h1]

/-- Witness for C4: the analyzer retries twice then succeeds, so `Run` makes
three analyzer invocations and one Teardown invocation. -/
theorem C4_retry_counting_witness :
    ∃ evs, Driver.Run retryTwiceDriver 3 [QueueItem.comp exCU] = some (none, evs) ∧
      countAnalyze evs = 3 ∧ countTeardown evs = 1 := by
  obtain ⟨evs, h1, h2, h3⟩ := C4_retry_counting retryTwiceDriver
    (fun _ n => if n < 2 then some GoErr.retry else none) (fun _ => 2) [exCU]
    (fun _ => none) 3 rfl rfl rfl rfl rfl
    (fun cu _ => rfl)
    (fun cu _ n hn => by simp [hn])
    (fun cu _ => rfl)
    (fun cu _ => Nat.lt_succ_self 2)
  exact ⟨evs, h1, by simpa using h2, by simpa using h3⟩

/-- Witness for C3: both branches at concrete drivers where the analyzer
fails with "afail" (resp. succeeds) and Teardown fails with "tfail". -/
theorem C3_error_precedence_witness :
    analyzeAndTeardown 3 bothFailDriver (fun _ _ => some (GoErr.msg "afail")) exCU =
      some (some (GoErr.msg "afail"),
        [DriverEvent.analyzeCall exCU 0] ++ [DriverEvent.teardownCall exCU]) ∧
    analyzeAndTeardown 3 teardownFailDriver (fun _ _ => none) exCU =
      some (some (GoErr.msg ("analysis teardown error: " ++ errText (GoErr.msg "tfail"))),
        [DriverEvent.analyzeCall exCU 0] ++ [DriverEvent.teardownCall exCU]) :=
  ⟨(C3_error_precedence 3 bothFailDriver (fun _ _ => some (GoErr.msg "afail")) exCU
      (fun _ => some (GoErr.msg "tfail")) (GoErr.msg "tfail") rfl rfl).1
      (GoErr.msg "afail") [DriverEvent.analyzeCall exCU 0] (by decide),
   (C3_error_precedence 3 teardownFailDriver (fun _ _ => none) exCU
      (fun _ => some (GoErr.msg "tfail")) (GoErr.msg "tfail") rfl rfl).2
      [DriverEvent.analyzeCall exCU 0] (by decide)⟩

end KytheDriver
